import Mathlib

/-!
Verification development for the ChatLogger plugin (`src/main.py`).

The Python source is shallowly embedded below:
pure functions become Lean functions, the database session and commit are
modelled by explicit `Except`-valued environment inputs, exceptions become
`Except.error` values, log output becomes an explicit list of
level-tagged lines, and each handler additionally records the ordered
trace of checks it performed so that statements about step order can be
made.  Time is a `Nat` parameter: the value passed for `now` stands for
the value of `datetime.now(tz=timezone.utc)` at that point of execution.
-/

namespace ChatLogger

/-- A group identifier as it arrives from the platform: either a numeric id
or a string id.  `canon` is Python's `str(group_id)`. -/
inductive GroupId where
  | num (n : Int)
  | str (s : String)
deriving DecidableEq

def GroupId.canon : GroupId → String
  | .num n => toString n
  | .str s => s

/-- Plugin configuration fields, mirroring the instance attributes set in
`ChatLoggerPlugin.__init__` (src/main.py lines 56-60). -/
structure Config where
  database_url : String
  bot_nickname : String
  include_bot_messages : Bool
  group_whitelist : List String
  group_blacklist : List String
deriving DecidableEq

/-- The defaults assigned in `__init__`. -/
def defaultConfig : Config :=
  { database_url := "sqlite+aiosqlite:///./data/plugins/ChatLogger/chat_logs.db"
    bot_nickname := "Self"
    include_bot_messages := true
    group_whitelist := []
    group_blacklist := [] }

/-- `_should_log_group` (src/main.py lines 119-131): whitelist check first
(a non-empty whitelist that does not contain the canonical id rejects),
then blacklist membership rejects, otherwise accept. -/
def should_log_group (cfg : Config) (group_id : GroupId) : Bool :=
  let group_id_str := group_id.canon
  if cfg.group_whitelist ≠ [] ∧ group_id_str ∉ cfg.group_whitelist then
    false
  else if group_id_str ∈ cfg.group_blacklist then
    false
  else
    true

/-- Python's `str.strip()`: drop whitespace from both ends of the string. -/
def pyStrip (s : String) : String :=
  String.mk (List.reverse (List.dropWhile Char.isWhitespace
    (List.reverse (List.dropWhile Char.isWhitespace s.data))))

/-- Log severity levels used by the plugin. -/
inductive LogLevel where
  | debug
  | info
  | warning
  | error
deriving DecidableEq

/-- The persisted row shape of table `group_msg` (src/main.py lines 34-45).
The auto-incremented `id` is assigned by storage and is not modelled. -/
structure ChatRecord where
  datetime : Nat
  user_id : String
  nickname : Option String
  message : String
  group_id : String
deriving DecidableEq

/-- The column-level default of the `datetime` column
(src/main.py line 41): `default=datetime.now(tz=timezone.utc)` is evaluated
once, when the `ChatRecord` class is defined, so the default is the fixed
class-definition time. -/
def chatRecord_datetime_default (class_def_time : Nat) : Nat := class_def_time

/-- Constructing a `ChatRecord`: a column for which an explicit value is
given takes that value; the `datetime` column falls back to the schema
default when no explicit value is passed. -/
def mk_chat_record (class_def_time : Nat) (datetime_arg : Option Nat)
    (user_id : String) (nickname : Option String) (message : String)
    (group_id : String) : ChatRecord :=
  { datetime := datetime_arg.getD (chatRecord_datetime_default class_def_time)
    user_id := user_id
    nickname := nickname
    message := message
    group_id := group_id }

/-- Outcome of `_save_chat_record`.  The function has no way to signal an
exception to its caller: every control path ends in one of these normal
returns. -/
inductive SaveOutcome where
  | warnedSkip
  | saved (rec : ChatRecord)
  | caughtErr (e : String)
deriving DecidableEq

def SaveOutcome.savedRecord : SaveOutcome → Option ChatRecord
  | .saved rec => some rec
  | _ => none

/-- The body of the `try` block in `_save_chat_record`: open a session,
construct the record, commit.  The commit may fail, which in Python raises. -/
def save_body (commit : Except String Unit) (rec : ChatRecord) :
    Except String ChatRecord :=
  match commit with
  | .error e => .error e
  | .ok _ => .ok rec

/-- `_save_chat_record` (src/main.py lines 133-157).  `factoryPresent`
models `self.session_factory` being non-None; `commit` models the result of
the unit of work (`session.add` + `session.commit`); `now` is the value of
`datetime.now(tz=timezone.utc)` taken inside this call.  Returns the log
lines emitted and the outcome; errors from the body are caught and logged. -/
def save_chat_record (class_def_time : Nat) (factoryPresent : Bool)
    (commit : Except String Unit) (user_id : String) (nickname : Option String)
    (message : String) (group_id : String) (now : Nat) :
    List (LogLevel × String) × SaveOutcome :=
  if factoryPresent = false then
    ([(LogLevel.warning, "Database not initialized, skipping record save")],
      .warnedSkip)
  else
    match save_body commit
        (mk_chat_record class_def_time (some now) user_id nickname message
          group_id) with
    | .ok rec =>
      ([(LogLevel.debug,
          "Saved chat record from user " ++ user_id ++ " in group " ++ group_id)],
        .saved rec)
    | .error e =>
      ([(LogLevel.error, "Failed to save chat record: " ++ e)], .caughtErr e)

/-- One observable step of a handler run, in execution order. -/
inductive Step where
  | botGateCheck
  | scopeCheck (launcher_type : String)
  | filterCheck (gid : String)
  | nonGroupCheck
  | emptyCheck (text : String)
  | saveCall
deriving DecidableEq

def stepIsFilterCheck : Step → Bool
  | .filterCheck _ => true
  | _ => false

def stepIsNonGroupCheck : Step → Bool
  | .nonGroupCheck => true
  | _ => false

/-- The group ids on which `_should_log_group` was evaluated during a run. -/
def filterTestedIds (t : List Step) : List String :=
  t.filterMap (fun s => match s with | .filterCheck g => some g | _ => none)

/-- In trace `t`, some step satisfying `p` occurs strictly before every step
satisfying `q` (via first occurrence indices). -/
def checkPrecedes (p q : Step → Bool) (t : List Step) : Prop :=
  List.findIdx p t < List.findIdx q t

instance (p q : Step → Bool) (t : List Step) : Decidable (checkPrecedes p q t) :=
  inferInstanceAs (Decidable (List.findIdx p t < List.findIdx q t))

/-- The result of one handler invocation: the trace of checks, the log
lines, the record written (if any), and the exception escaping to the host
(if any). -/
structure RunResult where
  trace : List Step
  logs : List (LogLevel × String)
  written : Option ChatRecord
  raised : Option String
deriving DecidableEq

/-- The fields of a `GroupMessageReceived` event that the incoming-message
handler reads.  `is_group_message` models
`isinstance(event.query.message_event, GroupMessage)`;
`message_chain_text` models `str(group_message.message_chain)`. -/
structure GMEvent where
  launcher_id : GroupId
  is_group_message : Bool
  message_chain_text : String
  sender_id : GroupId
  sender_name : Option String
  group_id : GroupId
deriving DecidableEq

/-- `on_group_message_received` (src/main.py lines 159-192).  `ectx` models
reading `ctx.event` and its attributes, which may raise on a malformed
event; such an exception is caught by the handler's `try`/`except` and
logged.  The code order is: group filter on `event.launcher_id`, then the
`isinstance` group-message check, then the empty-text check, then the save. -/
def on_group_message_received (class_def_time : Nat) (cfg : Config)
    (ectx : Except String GMEvent) (factoryPresent : Bool)
    (commit : Except String Unit) (now : Nat) : RunResult :=
  match ectx with
  | .error e =>
    { trace := []
      logs := [(LogLevel.error, "Error handling group message: " ++ e)]
      written := none
      raised := none }
  | .ok event =>
    let t1 := [Step.filterCheck event.launcher_id.canon]
    if should_log_group cfg event.launcher_id = false then
      { trace := t1, logs := [], written := none, raised := none }
    else
      let t2 := t1 ++ [Step.nonGroupCheck]
      if event.is_group_message = false then
        { trace := t2, logs := [], written := none, raised := none }
      else
        let message_text := event.message_chain_text
        let t3 := t2 ++ [Step.emptyCheck message_text]
        if pyStrip message_text = "" then
          { trace := t3, logs := [], written := none, raised := none }
        else
          let s := save_chat_record class_def_time factoryPresent commit
            event.sender_id.canon event.sender_name message_text
            event.group_id.canon now
          { trace := t3 ++ [Step.saveCall]
            logs := s.1
            written := s.2.savedRecord
            raised := none }

/-- Python truthiness of an optional string: `None` and `""` are falsy. -/
def pyTruthyStr : Option String → Bool
  | none => false
  | some s => !(s = "")

/-- The concatenation in `on_normal_message_responded` (src/main.py lines
211-216): start from `''`, append `event.prefix` if truthy, then append
`event.response_text` if truthy. -/
def full_response_of (prefix_text response_text : Option String) : String :=
  let full0 := ""
  let full1 := if pyTruthyStr prefix_text then full0 ++ prefix_text.getD ""
    else full0
  if pyTruthyStr response_text then full1 ++ response_text.getD "" else full1

/-- The fields of a `NormalMessageResponded` event that the bot-response
handler reads. -/
structure BotEvent where
  launcher_type : String
  launcher_id : GroupId
  prefix_text : Option String
  response_text : Option String
  bot_account_id : GroupId
deriving DecidableEq

/-- `on_normal_message_responded` (src/main.py lines 194-235).  The
`include_bot_messages` gate is the first statement inside the `try`, before
the event is even read; then the `launcher_type` scope check, the group
filter on `event.launcher_id`, the prefix/response concatenation with its
empty check, and the save (with the bot's account id and the configured
nickname, storing `str(event.launcher_id)` as the group id). -/
def on_normal_message_responded (class_def_time : Nat) (cfg : Config)
    (ectx : Except String BotEvent) (factoryPresent : Bool)
    (commit : Except String Unit) (now : Nat) : RunResult :=
  if cfg.include_bot_messages = false then
    { trace := [Step.botGateCheck], logs := [], written := none, raised := none }
  else
    match ectx with
    | .error e =>
      { trace := [Step.botGateCheck]
        logs := [(LogLevel.error, "Error handling bot response: " ++ e)]
        written := none
        raised := none }
    | .ok event =>
      let t1 := [Step.botGateCheck, Step.scopeCheck event.launcher_type]
      if event.launcher_type ≠ "group" then
        { trace := t1, logs := [], written := none, raised := none }
      else
        let t2 := t1 ++ [Step.filterCheck event.launcher_id.canon]
        if should_log_group cfg event.launcher_id = false then
          { trace := t2, logs := [], written := none, raised := none }
        else
          let full_response :=
            full_response_of event.prefix_text event.response_text
          let t3 := t2 ++ [Step.emptyCheck full_response]
          if pyStrip full_response = "" then
            { trace := t3, logs := [], written := none, raised := none }
          else
            let s := save_chat_record class_def_time factoryPresent commit
              event.bot_account_id.canon (some cfg.bot_nickname) full_response
              event.launcher_id.canon now
            { trace := t3 ++ [Step.saveCall]
              logs := s.1
              written := s.2.savedRecord
              raised := none }

/-- The fallible operations performed during plugin initialization:
directory creation, `create_async_engine`, and `Base.metadata.create_all`. -/
structure InitEnv where
  mkdirResult : Except String Unit
  engineResult : Except String Unit
  createAllResult : Except String Unit
  loadedConfig : Config

/-- `_init_database` (src/main.py lines 96-117): engine creation then table
creation; on failure the exception is logged and re-raised. -/
def init_database (env : InitEnv) : Except String Unit :=
  match env.engineResult with
  | .error e => .error e
  | .ok _ => env.createAllResult

/-- `initialize` (src/main.py lines 62-94): handler registration and
directory creation, config loading, then `_init_database`; any exception is
logged and re-raised to the host (`raise` on line 92). -/
def initialize_plugin (env : InitEnv) : Except String Config :=
  match env.mkdirResult with
  | .error e => .error e
  | .ok _ =>
    match init_database env with
    | .error e => .error e
    | .ok _ => .ok env.loadedConfig

/-- Outcome of `destroy`; the `except` clause means no constructor for an
escaping exception exists. -/
inductive DestroyOutcome where
  | noEngine
  | closed
  | caughtLogged (e : String)
deriving DecidableEq

/-- `destroy` (src/main.py lines 237-244): dispose the engine if present;
a disposal failure is caught and logged. -/
def destroy (enginePresent : Bool) (disposeResult : Except String Unit) :
    DestroyOutcome :=
  if enginePresent = false then .noEngine
  else
    match disposeResult with
    | .ok _ => .closed
    | .error e => .caughtLogged e

/-! ## Helper lemmas -/

/-- The truthiness-guarded concatenation equals plain concatenation where an
absent (or empty, hence falsy) part contributes the empty string. -/
theorem full_response_of_eq (p r : Option String) :
    full_response_of p r = p.getD "" ++ r.getD "" := by
  cases p with
  | none =>
    cases r with
    | none => rfl
    | some s =>
      by_cases hs : s = "" <;>
        simp [full_response_of, pyTruthyStr, hs, String.empty_append]
  | some s =>
    cases r with
    | none =>
      by_cases hs : s = "" <;>
        simp [full_response_of, pyTruthyStr, hs, String.append_empty,
          String.empty_append]
    | some t =>
      by_cases hs : s = "" <;> by_cases ht : t = "" <;>
        simp [full_response_of, pyTruthyStr, hs, ht, String.append_empty,
          String.empty_append]

/-- Whatever the environment does, a record extracted from a save outcome is
the one built from the arguments of that call (with `datetime := now`). -/
theorem save_chat_record_savedRecord (class_def_time : Nat)
    (factoryPresent : Bool) (commit : Except String Unit) (user_id : String)
    (nickname : Option String) (message : String) (group_id : String)
    (now : Nat) :
    ∀ rec,
      (save_chat_record class_def_time factoryPresent commit user_id nickname
          message group_id now).2.savedRecord = some rec →
      rec = mk_chat_record class_def_time (some now) user_id nickname message
        group_id := by
  intro rec h
  cases factoryPresent with
  | false => simp [save_chat_record, SaveOutcome.savedRecord] at h
  | true =>
    cases commit with
    | error e =>
      simp [save_chat_record, save_body, SaveOutcome.savedRecord] at h
    | ok u =>
      simp [save_chat_record, save_body, SaveOutcome.savedRecord] at h
      exact h.symm

/-- The incoming-message handler never lets an exception escape. -/
theorem gm_raised_none (class_def_time : Nat) (cfg : Config)
    (ectx : Except String GMEvent) (factoryPresent : Bool)
    (commit : Except String Unit) (now : Nat) :
    (on_group_message_received class_def_time cfg ectx factoryPresent commit
      now).raised = none := by
  cases ectx with
  | error e => rfl
  | ok ev =>
    simp only [on_group_message_received]
    split
    · rfl
    · split
      · rfl
      · split
        · rfl
        · rfl

/-- The bot-response handler never lets an exception escape. -/
theorem bot_raised_none (class_def_time : Nat) (cfg : Config)
    (ectx : Except String BotEvent) (factoryPresent : Bool)
    (commit : Except String Unit) (now : Nat) :
    (on_normal_message_responded class_def_time cfg ectx factoryPresent commit
      now).raised = none := by
  simp only [on_normal_message_responded]
  split
  · rfl
  · split
    · rfl
    · split
      · rfl
      · split
        · rfl
        · split
          · rfl
          · rfl

/-! ## Concrete fixtures -/

/-- An event whose filter check passes but whose platform message is not a
group message. -/
def c3_event : GMEvent :=
  { launcher_id := .str "1", is_group_message := false,
    message_chain_text := "hi", sender_id := .str "u", sender_name := none,
    group_id := .str "1" }

/-- An incoming event rendering to whitespace-only text. -/
def c6_event : GMEvent :=
  { launcher_id := .str "1", is_group_message := true,
    message_chain_text := "   ", sender_id := .str "u", sender_name := none,
    group_id := .str "1" }

/-- A bot response with a prefix. -/
def c7_event : BotEvent :=
  { launcher_type := "group", launcher_id := .str "g",
    prefix_text := some "[auto] ", response_text := some "done",
    bot_account_id := .str "b" }

/-- A bot response whose concatenation is whitespace-only. -/
def c7_event_blank : BotEvent :=
  { launcher_type := "group", launcher_id := .str "g", prefix_text := none,
    response_text := some "   ", bot_account_id := .str "b" }

/-- A configuration blacklisting group `"999"`. -/
def c10_cfg : Config := { defaultConfig with group_blacklist := ["999"] }

/-- An event whose launcher id (`"1"`) differs from the platform message's
group id (`"999"`, which is blacklisted in `c10_cfg`). -/
def c10_event : GMEvent :=
  { launcher_id := .str "1", is_group_message := true,
    message_chain_text := "hello", sender_id := .str "u",
    sender_name := none, group_id := .str "999" }

/-! ## Claims -/

/-- Claim C1: blacklist precedence in the group filter.  For every
configuration and group id, if the canonical string form of the id is in the
blacklist then `should_log_group` returns `false`, whatever the whitelist
contains. -/
theorem C1_blacklist_precedence (cfg : Config) (g : GroupId)
    (h : g.canon ∈ cfg.group_blacklist) :
    should_log_group cfg g = false := by
  simp [should_log_group, h]

/-- Witness for C1: group `"1"` is in both whitelist and blacklist and is
rejected. -/
theorem C1_blacklist_precedence_witness :
    should_log_group
      { defaultConfig with group_whitelist := ["1"], group_blacklist := ["1"] }
      (GroupId.str "1") = false :=
  C1_blacklist_precedence
    { defaultConfig with group_whitelist := ["1"], group_blacklist := ["1"] }
    (GroupId.str "1") (by decide)

/-- Claim C2: whitelist semantics.  With both lists empty every group is
accepted; with a non-empty whitelist and empty blacklist a group is accepted
iff its canonical string form is in the whitelist. -/
theorem C2_whitelist_semantics (cfg : Config) (g : GroupId) :
    (cfg.group_whitelist = [] → cfg.group_blacklist = [] →
      should_log_group cfg g = true) ∧
    (cfg.group_whitelist ≠ [] → cfg.group_blacklist = [] →
      (should_log_group cfg g = true ↔ g.canon ∈ cfg.group_whitelist)) := by
  constructor
  · intro hw hb
    simp [should_log_group, hw, hb]
  · intro hw hb
    by_cases hm : g.canon ∈ cfg.group_whitelist
    · simp [should_log_group, hb, hm]
    · simp [should_log_group, hw, hb, hm]

/-- Witness for C2: with empty lists group `"x"` is accepted; with whitelist
`["1"]` group `"1"` is accepted and group `"2"` is not. -/
theorem C2_whitelist_semantics_witness :
    should_log_group defaultConfig (GroupId.str "x") = true ∧
    (should_log_group { defaultConfig with group_whitelist := ["1"] }
        (GroupId.str "1") = true ↔ (GroupId.str "1").canon ∈ ["1"]) ∧
    (should_log_group { defaultConfig with group_whitelist := ["1"] }
        (GroupId.str "2") = true ↔ (GroupId.str "2").canon ∈ ["1"]) :=
  ⟨(C2_whitelist_semantics defaultConfig (GroupId.str "x")).1 rfl rfl,
   (C2_whitelist_semantics { defaultConfig with group_whitelist := ["1"] }
      (GroupId.str "1")).2 (by decide) rfl,
   (C2_whitelist_semantics { defaultConfig with group_whitelist := ["1"] }
      (GroupId.str "2")).2 (by decide) rfl⟩

/-- Claim C4: fail-soft append.  `_save_chat_record` always returns
normally: with the session factory absent it emits exactly one
warning-level log line and writes nothing; with the factory present a
failing commit is caught and logged as an error; with the factory present
and a successful commit the record is saved.  These three cases cover every
input, so no exception ever reaches the caller. -/
theorem C4_save_fail_soft (class_def_time : Nat) (factoryPresent : Bool)
    (commit : Except String Unit) (user_id : String) (nickname : Option String)
    (message : String) (group_id : String) (now : Nat) :
    (factoryPresent = false →
      save_chat_record class_def_time factoryPresent commit user_id nickname
          message group_id now
        = ([(LogLevel.warning, "Database not initialized, skipping record save")],
            SaveOutcome.warnedSkip)) ∧
    (∀ e, factoryPresent = true → commit = .error e →
      save_chat_record class_def_time factoryPresent commit user_id nickname
          message group_id now
        = ([(LogLevel.error, "Failed to save chat record: " ++ e)],
            SaveOutcome.caughtErr e)) ∧
    (∀ u, factoryPresent = true → commit = .ok u →
      save_chat_record class_def_time factoryPresent commit user_id nickname
          message group_id now
        = ([(LogLevel.debug,
              "Saved chat record from user " ++ user_id ++ " in group "
                ++ group_id)],
            SaveOutcome.saved
              (mk_chat_record class_def_time (some now) user_id nickname
                message group_id))) := by
  refine ⟨?_, ?_, ?_⟩
  · intro h
    subst h
    rfl
  · intro e hf hc
    subst hf
    subst hc
    rfl
  · intro u hf hc
    subst hf
    subst hc
    rfl

/-- Witness for C4: with the factory absent the call returns the warning
outcome; with the factory present and a failing commit it returns the
caught-error outcome. -/
theorem C4_save_fail_soft_witness :
    save_chat_record 0 false (.error "disconnect") "u1" none "hi" "g1" 5
      = ([(LogLevel.warning, "Database not initialized, skipping record save")],
          SaveOutcome.warnedSkip) ∧
    save_chat_record 0 true (.error "disconnect") "u1" none "hi" "g1" 5
      = ([(LogLevel.error, "Failed to save chat record: " ++ "disconnect")],
          SaveOutcome.caughtErr "disconnect") :=
  ⟨(C4_save_fail_soft 0 false (.error "disconnect") "u1" none "hi" "g1" 5).1 rfl,
   (C4_save_fail_soft 0 true (.error "disconnect") "u1" none "hi" "g1" 5).2.1
      "disconnect" rfl rfl⟩

/-- Claim C9: for every append call, the `datetime` stored in the saved
record is the `now` value captured during that call, whatever the
class-definition time of the schema default is — the write path passes the
timestamp explicitly, so the column default fixed at schema-definition time
is never what gets stored. -/
theorem C9_timestamp (class_def_time : Nat) (factoryPresent : Bool)
    (commit : Except String Unit) (user_id : String) (nickname : Option String)
    (message : String) (group_id : String) (now : Nat) :
    ∀ rec,
      (save_chat_record class_def_time factoryPresent commit user_id nickname
          message group_id now).2 = SaveOutcome.saved rec →
      rec.datetime = now := by
  intro rec h
  unfold save_chat_record at h
  split at h
  · simp at h
  · cases commit with
    | error e => simp [save_body] at h
    | ok u =>
      simp [save_body] at h
      subst h
      simp [mk_chat_record]

/-- Witness for C9: at a concrete successful append with `now = 42` the
saved record's timestamp is `42`, even though the schema default was fixed
at class-definition time `999`. -/
theorem C9_timestamp_witness :
    ({ datetime := 42, user_id := "u", nickname := none, message := "hi",
        group_id := "g" } : ChatRecord).datetime = 42 :=
  C9_timestamp 999 true (.ok ()) "u" none "hi" "g" 42
    { datetime := 42, user_id := "u", nickname := none, message := "hi",
      group_id := "g" } (by decide)

/-- Claim C3 as stated is false on the code: at this concrete event both
checks occur, yet the non-group (`isinstance`) check does not precede the
group-filter check — the filter check comes first (src/main.py lines
165 and 169). -/
theorem C3_counterexample :
    (on_group_message_received 0 defaultConfig (.ok c3_event) true (.ok ())
        0).trace = [Step.filterCheck "1", Step.nonGroupCheck] ∧
    ¬ checkPrecedes stepIsNonGroupCheck stepIsFilterCheck
        (on_group_message_received 0 defaultConfig (.ok c3_event) true
          (.ok ()) 0).trace := by decide

/-- Claim C3 amended: the incoming-message handler applies the group filter
to the event's launcher id first, and only after the filter passes does it
check whether the event is a group-scoped message — the filter check is
always the first step of the run, and whenever the non-group check occurs
the filter check strictly precedes it. -/
theorem C3_amended_filter_first (class_def_time : Nat) (cfg : Config)
    (ev : GMEvent) (factoryPresent : Bool) (commit : Except String Unit)
    (now : Nat) :
    (on_group_message_received class_def_time cfg (.ok ev) factoryPresent
        commit now).trace.head?
      = some (Step.filterCheck ev.launcher_id.canon) ∧
    (Step.nonGroupCheck ∈ (on_group_message_received class_def_time cfg
        (.ok ev) factoryPresent commit now).trace →
      checkPrecedes stepIsFilterCheck stepIsNonGroupCheck
        (on_group_message_received class_def_time cfg (.ok ev) factoryPresent
          commit now).trace) := by
  simp only [on_group_message_received]
  split
  · exact ⟨rfl, fun hmem => absurd hmem (by simp)⟩
  · split
    · exact ⟨rfl, fun _ => by
        simp [checkPrecedes, List.findIdx_cons, stepIsFilterCheck,
          stepIsNonGroupCheck]⟩
    · split
      · exact ⟨rfl, fun _ => by
          simp [checkPrecedes, List.findIdx_cons, stepIsFilterCheck,
            stepIsNonGroupCheck]⟩
      · exact ⟨rfl, fun _ => by
          simp [checkPrecedes, List.findIdx_cons, stepIsFilterCheck,
            stepIsNonGroupCheck]⟩

/-- Witness for C3 (amended): on a concrete run containing the non-group
check, the filter check precedes it. -/
theorem C3_amended_filter_first_witness :
    checkPrecedes stepIsFilterCheck stepIsNonGroupCheck
      (on_group_message_received 0 defaultConfig (.ok c3_event) true (.ok ())
        0).trace :=
  (C3_amended_filter_first 0 defaultConfig c3_event true (.ok ()) 0).2
    (by decide)

/-- Claim C5: propagation policy.  Every failure during initialization
(directory creation, engine creation, table creation) is re-raised to the
host; the two event handlers and the shutdown path never let an exception
escape, whatever the event, configuration or storage behaviour. -/
theorem C5_propagation_policy :
    (∀ env : InitEnv, ∀ e, env.mkdirResult = .error e →
      initialize_plugin env = .error e) ∧
    (∀ env : InitEnv, ∀ u e, env.mkdirResult = .ok u →
      env.engineResult = .error e → initialize_plugin env = .error e) ∧
    (∀ env : InitEnv, ∀ u v e, env.mkdirResult = .ok u →
      env.engineResult = .ok v → env.createAllResult = .error e →
      initialize_plugin env = .error e) ∧
    (∀ class_def_time cfg ectx factoryPresent commit now,
      (on_group_message_received class_def_time cfg ectx factoryPresent
        commit now).raised = none) ∧
    (∀ class_def_time cfg ectx factoryPresent commit now,
      (on_normal_message_responded class_def_time cfg ectx factoryPresent
        commit now).raised = none) ∧
    (∀ disposeResult, destroy false disposeResult = DestroyOutcome.noEngine) ∧
    (∀ e, destroy true (.error e) = DestroyOutcome.caughtLogged e) := by
  refine ⟨?_, ?_, ?_, ?_, ?_, ?_, ?_⟩
  · intro env e h
    simp [initialize_plugin, h]
  · intro env u e h1 h2
    simp [initialize_plugin, init_database, h1, h2]
  · intro env u v e h1 h2 h3
    simp [initialize_plugin, init_database, h1, h2, h3]
  · intro class_def_time cfg ectx factoryPresent commit now
    exact gm_raised_none class_def_time cfg ectx factoryPresent commit now
  · intro class_def_time cfg ectx factoryPresent commit now
    exact bot_raised_none class_def_time cfg ectx factoryPresent commit now
  · intro disposeResult
    rfl
  · intro e
    rfl

/-- Witness for C5: a failing directory creation aborts initialization with
that error; a failing engine dispose is absorbed by `destroy`. -/
theorem C5_propagation_policy_witness :
    initialize_plugin
        { mkdirResult := .error "mkdir failed", engineResult := .ok (),
          createAllResult := .ok (), loadedConfig := defaultConfig }
      = .error "mkdir failed" ∧
    (on_group_message_received 0 defaultConfig (.error "malformed event")
      true (.ok ()) 0).raised = none ∧
    destroy true (.error "dispose failed")
      = DestroyOutcome.caughtLogged "dispose failed" :=
  ⟨C5_propagation_policy.1
      { mkdirResult := .error "mkdir failed", engineResult := .ok (),
        createAllResult := .ok (), loadedConfig := defaultConfig }
      "mkdir failed" rfl,
   C5_propagation_policy.2.2.2.1 0 defaultConfig (.error "malformed event")
      true (.ok ()) 0,
   C5_propagation_policy.2.2.2.2.2.2 "dispose failed"⟩

/-- Claim C6: empty-content suppression.  If the incoming message's payload
renders to a string that strips to empty, the handler writes nothing and
never reaches the record writer (no save step occurs in the trace). -/
theorem C6_empty_suppression (class_def_time : Nat) (cfg : Config)
    (ev : GMEvent) (factoryPresent : Bool) (commit : Except String Unit)
    (now : Nat) (h : pyStrip ev.message_chain_text = "") :
    (on_group_message_received class_def_time cfg (.ok ev) factoryPresent
        commit now).written = none ∧
    Step.saveCall ∉ (on_group_message_received class_def_time cfg (.ok ev)
        factoryPresent commit now).trace := by
  simp only [on_group_message_received]
  split
  · exact ⟨rfl, by simp⟩
  · split
    · exact ⟨rfl, by simp⟩
    · exact ⟨rfl, by simp⟩

/-- Witness for C6: a payload rendering to three spaces produces no record
and no save step. -/
theorem C6_empty_suppression_witness :
    (on_group_message_received 0 defaultConfig (.ok c6_event) true (.ok ())
        0).written = none ∧
    Step.saveCall ∉ (on_group_message_received 0 defaultConfig (.ok c6_event)
        true (.ok ()) 0).trace :=
  C6_empty_suppression 0 defaultConfig c6_event true (.ok ()) 0 (by decide)

/-- Claim C7: bot-response concatenation.  Every record the bot-response
handler writes carries exactly the optional prefix followed by the optional
response body (an absent part contributing the empty string), and if that
concatenation strips to empty nothing is written. -/
theorem C7_bot_concat (class_def_time : Nat) (cfg : Config) (ev : BotEvent)
    (factoryPresent : Bool) (commit : Except String Unit) (now : Nat) :
    (∀ rec, (on_normal_message_responded class_def_time cfg (.ok ev)
        factoryPresent commit now).written = some rec →
      rec.message = ev.prefix_text.getD "" ++ ev.response_text.getD "") ∧
    (pyStrip (full_response_of ev.prefix_text ev.response_text) = "" →
      (on_normal_message_responded class_def_time cfg (.ok ev) factoryPresent
        commit now).written = none) := by
  simp only [on_normal_message_responded]
  split
  · exact ⟨(fun rec hr => nomatch hr), fun _ => rfl⟩
  · split
    · exact ⟨(fun rec hr => nomatch hr), fun _ => rfl⟩
    · split
      · exact ⟨(fun rec hr => nomatch hr), fun _ => rfl⟩
      · split
        · exact ⟨(fun rec hr => nomatch hr), fun _ => rfl⟩
        · rename_i hne
          constructor
          · intro rec hr
            have h2 := save_chat_record_savedRecord class_def_time
              factoryPresent commit ev.bot_account_id.canon
              (some cfg.bot_nickname)
              (full_response_of ev.prefix_text ev.response_text)
              ev.launcher_id.canon now rec hr
            rw [h2]
            simpa [mk_chat_record] using
              full_response_of_eq ev.prefix_text ev.response_text
          · intro h
            exact absurd h hne

/-- Witness for C7: prefix plus body yields the stored text, and a
whitespace-only concatenation yields no record. -/
theorem C7_bot_concat_witness :
    ({ datetime := 7, user_id := "b", nickname := some "Self",
        message := "[auto] done", group_id := "g" } : ChatRecord).message
      = (some "[auto] ").getD "" ++ (some "done").getD "" ∧
    (on_normal_message_responded 0 defaultConfig (.ok c7_event_blank) true
        (.ok ()) 7).written = none :=
  ⟨(C7_bot_concat 0 defaultConfig c7_event true (.ok ()) 7).1
      { datetime := 7, user_id := "b", nickname := some "Self",
        message := "[auto] done", group_id := "g" } (by decide),
   (C7_bot_concat 0 defaultConfig c7_event_blank true (.ok ()) 7).2
      (by decide)⟩

/-- Claim C8: bot-message gate.  With `include_bot_messages` false, the
bot-response handler returns right after the gate: the trace contains only
the gate step, nothing is written and nothing is logged, whatever the event
(even a malformed one), the group filter configuration or the storage
state. -/
theorem C8_bot_gate (class_def_time : Nat) (cfg : Config)
    (ectx : Except String BotEvent) (factoryPresent : Bool)
    (commit : Except String Unit) (now : Nat)
    (h : cfg.include_bot_messages = false) :
    on_normal_message_responded class_def_time cfg ectx factoryPresent commit
        now
      = { trace := [Step.botGateCheck], logs := [], written := none,
          raised := none } := by
  simp [on_normal_message_responded, h]

/-- Witness for C8: with the flag off even a malformed event produces the
bare gate-only result. -/
theorem C8_bot_gate_witness :
    on_normal_message_responded 0
        { defaultConfig with include_bot_messages := false }
        (.error "malformed") true (.ok ()) 0
      = { trace := [Step.botGateCheck], logs := [], written := none,
          raised := none } :=
  C8_bot_gate 0 { defaultConfig with include_bot_messages := false }
    (.error "malformed") true (.ok ()) 0 rfl

/-- Claim C10 (implicit): the incoming-message handler evaluates the group
filter only on the event's launcher id, while the record it writes stores
the platform message's group id; when the two differ, the stored group id
is never among the ids tested against the whitelist/blacklist. -/
theorem C10_filter_id_mismatch (class_def_time : Nat) (cfg : Config)
    (ev : GMEvent) (factoryPresent : Bool) (commit : Except String Unit)
    (now : Nat) (h : ev.launcher_id.canon ≠ ev.group_id.canon) :
    filterTestedIds (on_group_message_received class_def_time cfg (.ok ev)
        factoryPresent commit now).trace = [ev.launcher_id.canon] ∧
    ev.group_id.canon ∉ filterTestedIds (on_group_message_received
        class_def_time cfg (.ok ev) factoryPresent commit now).trace ∧
    (∀ rec, (on_group_message_received class_def_time cfg (.ok ev)
        factoryPresent commit now).written = some rec →
      rec.group_id = ev.group_id.canon) := by
  have hne : ev.group_id.canon ≠ ev.launcher_id.canon := fun hh => h hh.symm
  simp only [on_group_message_received]
  split
  · exact ⟨by simp [filterTestedIds], by simp [filterTestedIds, hne],
      fun rec hr => nomatch hr⟩
  · split
    · exact ⟨by simp [filterTestedIds], by simp [filterTestedIds, hne],
        fun rec hr => nomatch hr⟩
    · split
      · exact ⟨by simp [filterTestedIds], by simp [filterTestedIds, hne],
          fun rec hr => nomatch hr⟩
      · refine ⟨by simp [filterTestedIds], by simp [filterTestedIds, hne],
          fun rec hr => ?_⟩
        have h2 := save_chat_record_savedRecord class_def_time factoryPresent
          commit ev.sender_id.canon ev.sender_name ev.message_chain_text
          ev.group_id.canon now rec hr
        rw [h2]
        simp [mk_chat_record]

/-- Witness for C10: with group `"999"` blacklisted, an event whose
launcher id is `"1"` but whose platform group id is `"999"` is written with
the blacklisted group id, which was never tested by the filter. -/
theorem C10_filter_id_mismatch_witness :
    should_log_group c10_cfg (GroupId.str "999") = false ∧
    filterTestedIds (on_group_message_received 0 c10_cfg (.ok c10_event) true
        (.ok ()) 3).trace = [(GroupId.str "1").canon] ∧
    (∀ rec, (on_group_message_received 0 c10_cfg (.ok c10_event) true
        (.ok ()) 3).written = some rec →
      rec.group_id = (GroupId.str "999").canon) :=
  ⟨by decide,
   (C10_filter_id_mismatch 0 c10_cfg c10_event true (.ok ()) 3 (by decide)).1,
   (C10_filter_id_mismatch 0 c10_cfg c10_event true (.ok ()) 3 (by decide)).2.2⟩

end ChatLogger
